import Mathlib

/-!
# Clock sequencing of the Cirrus audio card and the Madera SPI probe

Shallow embedding of

* `nvidia/sound/soc/tegra-alt/machine_drivers/tegra-cirrus.c` (FLL helpers, the two
  bias-level hooks and the late probe), and
* `drivers/mfd/madera-spi.c` (`madera_spi_probe`).

A C function is a state-passing function over the chronological list of externally
visible events (lock operations, calls into the sound core with their results, sleeps,
log lines).  Results of calls into code outside the driver come from an environment
`Hw`, which may answer every call differently depending on the history.  C `return`
is modelled by the `Flow` type, so that statements written after a `return` are kept
in the embedding and shown not to run.
-/

namespace CModel

/-- Outcome of running a statement over histories of events `ε`: either control
continues with a value, or the enclosing C function has executed `return v`. -/
inductive Flow (ε α : Type) where
  | next (a : α) (tr : List ε)
  | ret (v : Int) (tr : List ε)

/-- A C statement (or statement sequence) acting on the event history. -/
def Stmt (ε α : Type) : Type := List ε → Flow ε α

/-- A complete call of an `int` C function. -/
abbrev Fn (ε : Type) := List ε → Int × List ε

/-- Sequencing of statements: once a `return` has run, nothing after it runs. -/
def Stmt.bind {ε α β : Type} (m : Stmt ε α) (f : α → Stmt ε β) : Stmt ε β :=
  fun tr =>
    match m tr with
    | .next a tr1 => f a tr1
    | .ret v tr1 => .ret v tr1

instance {ε : Type} : Monad (Stmt ε) where
  pure a := fun tr => .next a tr
  bind := Stmt.bind

/-- The C statement `return v;`. -/
def creturn {ε α : Type} (v : Int) : Stmt ε α := fun tr => .ret v tr

/-- Record one event. -/
def emit {ε : Type} (e : ε) : Stmt ε Unit := fun tr => .next () (tr ++ [e])

/-- Run the body of an `int` function to its returned value. -/
def Stmt.run {ε : Type} (body : Stmt ε Int) : Fn ε :=
  fun tr =>
    match body tr with
    | .next v tr1 => (v, tr1)
    | .ret v tr1 => (v, tr1)

/-- Call an `int` function from within a statement sequence. -/
def Stmt.call {ε : Type} (f : Fn ε) : Stmt ε Int :=
  fun tr => .next (f tr).1 (f tr).2

end CModel

namespace TegraCirrus

open CModel

/-! ## Identifiers from headers -/

/-- Modelled from the spec: the power bias levels `Off`, `Standby`, `Prepare`, `On`
of section 3, under the names the source uses for them (`enum snd_soc_bias_level`,
declared in a header which is not part of the sources). -/
inductive snd_soc_bias_level where
  | SND_SOC_BIAS_OFF
  | SND_SOC_BIAS_STANDBY
  | SND_SOC_BIAS_PREPARE
  | SND_SOC_BIAS_ON
  deriving DecidableEq, Repr

/-- Modelled from the spec: the FLL instance identifier (`madera.h` is not part of the
sources); the driver only ever names FLL1's reference clock. -/
inductive madera_pll_id where
  | MADERA_FLL1_REFCLK
  deriving DecidableEq, Repr

/-- Modelled from the spec: the clock source identifiers used by the driver
(`reference_source` of `FllTarget`, section 3; `madera.h` is not part of the sources). -/
inductive madera_clk_src where
  | MADERA_FLL_SRC_NONE
  | MADERA_CLK_SRC_MCLK1
  | MADERA_CLK_SRC_FLL1
  deriving DecidableEq, Repr

/-- Modelled from the spec: the clock domain identifier (`ClockDomain`, section 3;
`madera.h` is not part of the sources). -/
inductive madera_clk_id where
  | MADERA_CLK_SYSCLK_1
  deriving DecidableEq, Repr

open snd_soc_bias_level madera_pll_id madera_clk_src madera_clk_id

/-- The constant `CS47L35_MAX_SYSCLK_1` (line 26). -/
def CS47L35_MAX_SYSCLK_1 : Nat := 98304000

/-- The constant `AUD_MCLK` (line 27). -/
def AUD_MCLK : Nat := 12288000

/-- Modelled from the spec: direction constant `SND_SOC_CLOCK_IN` of the sound core
header, which is not part of the sources. -/
def SND_SOC_CLOCK_IN : Nat := 0

/-! ## Events and environment -/

/-- A call from the driver into the sound core, with its arguments. -/
inductive Request where
  | snd_soc_codec_set_pll (pll_id : madera_pll_id) (source : madera_clk_src)
      (freq_in freq_out : Nat)
  | snd_soc_dai_set_sysclk (clk_id : madera_clk_id) (freq : Nat) (dir : Nat)
  | snd_soc_codec_set_sysclk (clk_id : madera_clk_id) (source : madera_clk_src)
      (freq : Nat) (dir : Nat)
  deriving DecidableEq, Repr

/-- Externally visible actions of the driver, in the order they happen. -/
inductive Event where
  | mutex_lock
  | mutex_unlock
  | call (req : Request) (ret : Int)
  | usleep_range (min max : Nat)
  | dev_warn (fmt : String) (args : List Int)
  | dev_err (fmt : String) (args : List Int)
  deriving DecidableEq, Repr

/-- The environment: the integer each sound-core call returns, which may depend on
everything that happened before and on the call itself. -/
abbrev Hw := List Event → Request → Int

/-- A call into the sound core: the environment supplies the result, and the call is
recorded together with it. -/
def core_call (hw : Hw) (req : Request) : Stmt Event Int :=
  fun tr => .next (hw tr req) (tr ++ [Event.call req (hw tr req)])

/-! ## Data reached through the card -/

/-- The part of `struct snd_soc_card` the hooks read: the card device (for logging)
and the device of the CS47L35 runtime's codec DAI. -/
structure snd_soc_card where
  dev : Nat
  codec_dai_dev : Nat
  deriving DecidableEq, Repr

/-- The part of `struct snd_soc_dapm_context` the hooks read. -/
structure snd_soc_dapm_context where
  dev : Nat
  bias_level : snd_soc_bias_level
  deriving DecidableEq, Repr

/-! ## The driver functions -/

/-- Source lines 58-72. -/
def tegra_cirrus_clear_flls (hw : Hw) : Fn Event :=
  Stmt.run (do
    let ret ← core_call hw (.snd_soc_codec_set_pll MADERA_FLL1_REFCLK MADERA_FLL_SRC_NONE 0 0)
    if ret ≠ 0 then
      emit (.dev_warn "setting FLL1_REFCLK to zero failed: %d\n" [ret])
      creturn ret
    creturn 0)

/-- Source lines 74-87. -/
def tegra_cirrus_set_fll (hw : Hw) (clk_freq : Nat) : Fn Event :=
  Stmt.run (do
    let ret ← core_call hw
      (.snd_soc_codec_set_pll MADERA_FLL1_REFCLK MADERA_CLK_SRC_MCLK1 AUD_MCLK clk_freq)
    if ret ≠ 0 then
      emit (.dev_err "Failed to set FLL1 to %d: %d\n" [(clk_freq : Int), ret])
    emit (.usleep_range 1000 2000)
    creturn ret)

/-- Source lines 89-125.  A `break` leaves the `switch`; the function then returns the
current value of `ret`. -/
def tegra_cirrus_set_bias_level (hw : Hw) (card : snd_soc_card)
    (dapm : snd_soc_dapm_context) (level : snd_soc_bias_level) : Fn Event :=
  Stmt.run (do
    let mut ret : Int := 0
    if dapm.dev ≠ card.codec_dai_dev then
      creturn 0
    match level with
    | SND_SOC_BIAS_PREPARE =>
      if dapm.bias_level = SND_SOC_BIAS_ON then
        pure ()
      else
        emit .mutex_lock
        let clk_freq := CS47L35_MAX_SYSCLK_1
        ret ← Stmt.call (tegra_cirrus_set_fll hw clk_freq)
        if ret ≠ 0 then
          emit (.dev_err "set_bias: Failed to set FLL1\n" [])
        emit .mutex_unlock
    | _ => pure ()
    creturn ret)

/-- Source lines 127-155. -/
def tegra_cirrus_set_bias_level_post (hw : Hw) (card : snd_soc_card)
    (dapm : snd_soc_dapm_context) (level : snd_soc_bias_level) : Fn Event :=
  Stmt.run (do
    if dapm.dev ≠ card.codec_dai_dev then
      creturn 0
    match level with
    | SND_SOC_BIAS_STANDBY =>
      emit .mutex_lock
      if (← Stmt.call (tegra_cirrus_clear_flls hw)) ≠ 0 then
        emit (.dev_err "set_bias_post: failed to clear FLLs\n" [])
      emit .mutex_unlock
    | _ => pure ()
    creturn 0)

/-- Source lines 170-205, including the statements written after the unconditional
`return ret;` of line 188. -/
def tegra_cirrus_late_probe (hw : Hw) : Fn Event :=
  Stmt.run (do
    let clk_freq := CS47L35_MAX_SYSCLK_1
    let ret ← core_call hw (.snd_soc_dai_set_sysclk MADERA_CLK_SYSCLK_1 0 0)
    if ret ≠ 0 then
      emit (.dev_err "Failed to set CS47L35 codec dai clk domain: %d\n" [ret])
      creturn ret
    creturn ret
    let ret1 ← core_call hw
      (.snd_soc_codec_set_sysclk MADERA_CLK_SYSCLK_1 MADERA_CLK_SRC_FLL1 clk_freq SND_SOC_CLOCK_IN)
    if ret1 ≠ 0 then
      emit (.dev_err "Failed to set SYSCLK: %d\n" [ret])
    emit .mutex_unlock
    creturn ret1)

/-! ## Observations on event histories -/

/-- Whether `priv->lock` is held after the given history. -/
def lock_held (tr : List Event) : Bool :=
  tr.foldl (fun held e =>
    match e with
    | .mutex_lock => true
    | .mutex_unlock => false
    | _ => held) false

/-- Lock operations and sound-core calls: everything except log lines and sleeps. -/
def is_lock_or_call : Event → Bool
  | .mutex_lock => true
  | .mutex_unlock => true
  | .call _ _ => true
  | _ => false

/-- Writes to the FLL, i.e. `snd_soc_codec_set_pll` calls. -/
def is_fll_write : Event → Bool
  | .call (.snd_soc_codec_set_pll _ _ _ _) _ => true
  | _ => false

/-- FLL writes that select a reference source other than `MADERA_FLL_SRC_NONE`. -/
def is_fll_enable : Event → Bool
  | .call (.snd_soc_codec_set_pll _ source _ _) _ => source != MADERA_FLL_SRC_NONE
  | _ => false

/-- Calls that configure the codec system clock. -/
def is_codec_sysclk : Event → Bool
  | .call (.snd_soc_codec_set_sysclk _ _ _ _) _ => true
  | _ => false

/-- Lock operations. -/
def is_lock_op : Event → Bool
  | .mutex_lock => true
  | .mutex_unlock => true
  | _ => false

/-- Ghost state `fll_active`: true exactly when the most recent successful FLL write
selected a reference source other than `MADERA_FLL_SRC_NONE` (false before any
successful write). -/
def fll_active (tr : List Event) : Bool :=
  tr.foldl (fun active e =>
    match e with
    | .call (.snd_soc_codec_set_pll _ source _ _) ret =>
      if ret = 0 then source != MADERA_FLL_SRC_NONE else active
    | _ => active) false

/-! ## The framework driving the hooks -/

/-- Sequencer state of section 3 of the specification: the committed bias level of the
codec's DAPM context together with the event history (from which `fll_active` is read). -/
structure SequencerState where
  current_bias : snd_soc_bias_level
  trace : List Event
  deriving DecidableEq, Repr

/-- Modelled from the spec: one bias transition of the codec's DAPM context as driven by
the audio framework, whose code is not part of the sources (section 4.2: the "pre" hook
runs before the framework commits the new level, the "post" hook after).  The
specification does not say what the framework does when the pre hook reports an
error, so that policy is a parameter: with `abort_on_error` the transition stops after a
failing pre hook and the level is left unchanged. -/
def dapm_transition (hw : Hw) (abort_on_error : Bool) (card : snd_soc_card)
    (s : SequencerState) (level : snd_soc_bias_level) : SequencerState :=
  let pre := tegra_cirrus_set_bias_level hw card
    { dev := card.codec_dai_dev, bias_level := s.current_bias } level s.trace
  if abort_on_error && pre.1 != 0 then
    { current_bias := s.current_bias, trace := pre.2 }
  else
    let post := tegra_cirrus_set_bias_level_post hw card
      { dev := card.codec_dai_dev, bias_level := level } level pre.2
    { current_bias := level, trace := post.2 }

/-- A sequence of bias transitions, returning the final state. -/
def run_transitions (hw : Hw) (abort_on_error : Bool) (card : snd_soc_card) :
    SequencerState → List snd_soc_bias_level → SequencerState
  | s, [] => s
  | s, level :: rest =>
    run_transitions hw abort_on_error card (dapm_transition hw abort_on_error card s level) rest

/-- The states in which control is back with the framework: the starting state and the
state after each transition of the sequence. -/
def visited (hw : Hw) (abort_on_error : Bool) (card : snd_soc_card) :
    SequencerState → List snd_soc_bias_level → List SequencerState
  | s, [] => [s]
  | s, level :: rest =>
    s :: visited hw abort_on_error card (dapm_transition hw abort_on_error card s level) rest

/-- The level `SND_SOC_BIAS_OFF` is only ever entered from `SND_SOC_BIAS_STANDBY` (or
re-entered from itself) along the run. -/
def off_only_from_standby (hw : Hw) (abort_on_error : Bool) (card : snd_soc_card) :
    SequencerState → List snd_soc_bias_level → Bool
  | _, [] => true
  | s, level :: rest =>
    (decide (level ≠ SND_SOC_BIAS_OFF) || decide (s.current_bias = SND_SOC_BIAS_OFF)
      || decide (s.current_bias = SND_SOC_BIAS_STANDBY))
    && off_only_from_standby hw abort_on_error card
      (dapm_transition hw abort_on_error card s level) rest

/-- The sequencer invariant of section 3: at bias Off or Standby the FLL is not active. -/
def fll_off_when_idle (s : SequencerState) : Prop :=
  (s.current_bias = SND_SOC_BIAS_OFF ∨ s.current_bias = SND_SOC_BIAS_STANDBY) →
    fll_active s.trace = false

instance (s : SequencerState) : Decidable (fll_off_when_idle s) := by
  unfold fll_off_when_idle
  infer_instance

end TegraCirrus

namespace MaderaSpi

open CModel

/-- Modelled from the spec: the hardware variant identifiers (`enum madera_type` of
`linux/mfd/madera/core.h`, which is not part of the sources).  Their numeric values are
not known here, so they are parameters of the probe. -/
structure madera_type_ids where
  CS47L15 : Nat
  CS47L35 : Nat
  CS47L85 : Nat
  CS47L90 : Nat
  CS47L91 : Nat
  CS47L92 : Nat
  CS47L93 : Nat
  WM1840 : Nat
  deriving DecidableEq, Repr

/-- The case labels of the `switch` in `madera_spi_probe`, in source order. -/
def madera_type_ids.labels (ids : madera_type_ids) : List Nat :=
  [ids.CS47L15, ids.CS47L35, ids.CS47L85, ids.WM1840, ids.CS47L90, ids.CS47L91,
    ids.CS47L92, ids.CS47L93]

/-- The build options tested with `IS_ENABLED`. -/
structure Kconfig where
  CONFIG_MFD_CS47L15 : Bool
  CONFIG_MFD_CS47L35 : Bool
  CONFIG_MFD_CS47L85 : Bool
  CONFIG_MFD_CS47L90 : Bool
  CONFIG_MFD_CS47L92 : Bool
  deriving DecidableEq, Repr

/-- The register-map descriptions named by the probe (declared in `madera.h`). -/
inductive regmap_config where
  | cs47l15_16bit_spi_regmap
  | cs47l15_32bit_spi_regmap
  | cs47l35_16bit_spi_regmap
  | cs47l35_32bit_spi_regmap
  | cs47l85_16bit_spi_regmap
  | cs47l85_32bit_spi_regmap
  | cs47l90_16bit_spi_regmap
  | cs47l90_32bit_spi_regmap
  | cs47l92_16bit_spi_regmap
  | cs47l92_32bit_spi_regmap
  deriving DecidableEq, Repr

/-- Codec families, one per pair of register maps. -/
inductive Family where
  | cs47l15
  | cs47l35
  | cs47l85
  | cs47l90
  | cs47l92
  deriving DecidableEq, Repr

/-- The family a register map is named after. -/
def regmap_config.family : regmap_config → Family
  | .cs47l15_16bit_spi_regmap => .cs47l15
  | .cs47l15_32bit_spi_regmap => .cs47l15
  | .cs47l35_16bit_spi_regmap => .cs47l35
  | .cs47l35_32bit_spi_regmap => .cs47l35
  | .cs47l85_16bit_spi_regmap => .cs47l85
  | .cs47l85_32bit_spi_regmap => .cs47l85
  | .cs47l90_16bit_spi_regmap => .cs47l90
  | .cs47l90_32bit_spi_regmap => .cs47l90
  | .cs47l92_16bit_spi_regmap => .cs47l92
  | .cs47l92_32bit_spi_regmap => .cs47l92

/-- The register width a register map is named after. -/
def regmap_config.width : regmap_config → Nat
  | .cs47l15_16bit_spi_regmap => 16
  | .cs47l15_32bit_spi_regmap => 32
  | .cs47l35_16bit_spi_regmap => 16
  | .cs47l35_32bit_spi_regmap => 32
  | .cs47l85_16bit_spi_regmap => 16
  | .cs47l85_32bit_spi_regmap => 32
  | .cs47l90_16bit_spi_regmap => 16
  | .cs47l90_32bit_spi_regmap => 32
  | .cs47l92_16bit_spi_regmap => 16
  | .cs47l92_32bit_spi_regmap => 32

/-- Errno `EINVAL` (kernel header, not part of the sources). -/
def EINVAL : Int := 22

/-- Errno `ENOMEM` (kernel header, not part of the sources). -/
def ENOMEM : Int := 12

/-- What the probe reads from `struct spi_device`: whether a device-tree node is
attached, the type `madera_get_type_from_of` reports for it, the `driver_data` of the
matched id-table entry, and the interrupt number. -/
structure spi_device where
  of_node : Bool
  type_from_of : Nat
  id_driver_data : Nat
  irq : Int
  deriving DecidableEq, Repr

/-- Externally visible actions of the probe.  A register-map creation records the
description passed and the error of the returned pointer (`none` for a valid pointer). -/
inductive Event where
  | printk (msg : String)
  | dev_err (fmt : String) (args : List Int)
  | devm_kzalloc (ok : Bool)
  | devm_regmap_init_spi (config : Option regmap_config) (err : Option Int)
  | madera_dev_init (type : Nat) (irq : Int) (ret : Int)
  deriving DecidableEq, Repr

/-- Results of the kernel services the probe calls. -/
structure ProbeEnv where
  devm_kzalloc_ok : Bool
  devm_regmap_init_spi : Option regmap_config → Option Int
  madera_dev_init : Nat → Int

/-- Source lines 32-35: where the hardware type comes from. -/
def probe_type (spi : spi_device) : Nat :=
  if spi.of_node then spi.type_from_of else spi.id_driver_data

/-- Source lines 37-75, the `switch (type)`: yields the two selected register maps
(`NULL` is `none`), or returns `-EINVAL` from the probe in the `default` case.  The
case labels are tried in source order. -/
def madera_spi_probe_switch (ids : madera_type_ids) (cfg : Kconfig) (type : Nat) :
    Stmt Event (Option regmap_config × Option regmap_config) := do
  let mut regmap_16bit_config : Option regmap_config := none
  let mut regmap_32bit_config : Option regmap_config := none
  if type = ids.CS47L15 then
    if cfg.CONFIG_MFD_CS47L15 then
      regmap_16bit_config := some .cs47l15_16bit_spi_regmap
      regmap_32bit_config := some .cs47l15_32bit_spi_regmap
  else if type = ids.CS47L35 then
    if cfg.CONFIG_MFD_CS47L35 then
      regmap_16bit_config := some .cs47l35_16bit_spi_regmap
      regmap_32bit_config := some .cs47l35_32bit_spi_regmap
  else if type = ids.CS47L85 ∨ type = ids.WM1840 then
    if cfg.CONFIG_MFD_CS47L85 then
      regmap_16bit_config := some .cs47l85_16bit_spi_regmap
      regmap_32bit_config := some .cs47l85_32bit_spi_regmap
  else if type = ids.CS47L90 ∨ type = ids.CS47L91 then
    if cfg.CONFIG_MFD_CS47L90 then
      regmap_16bit_config := some .cs47l90_16bit_spi_regmap
      regmap_32bit_config := some .cs47l90_32bit_spi_regmap
  else if type = ids.CS47L92 ∨ type = ids.CS47L93 then
    if cfg.CONFIG_MFD_CS47L92 then
      regmap_16bit_config := some .cs47l92_16bit_spi_regmap
      regmap_32bit_config := some .cs47l92_32bit_spi_regmap
  else
    emit (.dev_err "Unknown Madera SPI device type %ld\n" [(type : Int)])
    creturn (-EINVAL)
  pure (regmap_16bit_config, regmap_32bit_config)

/-- Source lines 22-109. -/
def madera_spi_probe (ids : madera_type_ids) (cfg : Kconfig) (env : ProbeEnv)
    (spi : spi_device) : Fn Event :=
  Stmt.run (do
    emit (.printk "madera_spi_probe\n")
    let type := probe_type spi
    let (regmap_16bit_config, regmap_32bit_config) ← madera_spi_probe_switch ids cfg type
    if regmap_16bit_config = none then
      emit (.dev_err "Kernel does not include support for %s\n" [(type : Int)])
      creturn (-EINVAL)
    emit (.devm_kzalloc env.devm_kzalloc_ok)
    if env.devm_kzalloc_ok = false then
      creturn (-ENOMEM)
    let regmap := env.devm_regmap_init_spi regmap_16bit_config
    emit (.devm_regmap_init_spi regmap_16bit_config regmap)
    if let some ret := regmap then
      emit (.dev_err "Failed to allocate 16-bit register map: %d\n" [ret])
      creturn ret
    let regmap_32bit := env.devm_regmap_init_spi regmap_32bit_config
    emit (.devm_regmap_init_spi regmap_32bit_config regmap_32bit)
    if let some ret := regmap_32bit then
      emit (.dev_err "Failed to allocate 32-bit register map: %d\n" [ret])
      creturn ret
    let ret := env.madera_dev_init type
    emit (.madera_dev_init type spi.irq ret)
    creturn ret)

/-- Source lines 121-131: the SPI id table (the terminating empty entry left out). -/
def madera_spi_ids (ids : madera_type_ids) : List (String × Nat) :=
  [("cs47l15", ids.CS47L15), ("cs47l35", ids.CS47L35), ("cs47l85", ids.CS47L85),
    ("cs47l90", ids.CS47L90), ("cs47l91", ids.CS47L91), ("cs47l92", ids.CS47L92),
    ("cs47l93", ids.CS47L93), ("wm1840", ids.WM1840)]

/-- Allocation of the device structure or creation of a register map. -/
def is_alloc_or_regmap : Event → Bool
  | .devm_kzalloc _ => true
  | .devm_regmap_init_spi _ _ => true
  | _ => false

/-- The build option of the family of the type is off. -/
def family_disabled (ids : madera_type_ids) (cfg : Kconfig) (type : Nat) : Prop :=
  (type = ids.CS47L15 ∧ cfg.CONFIG_MFD_CS47L15 = false)
  ∨ (type = ids.CS47L35 ∧ cfg.CONFIG_MFD_CS47L35 = false)
  ∨ ((type = ids.CS47L85 ∨ type = ids.WM1840) ∧ cfg.CONFIG_MFD_CS47L85 = false)
  ∨ ((type = ids.CS47L90 ∨ type = ids.CS47L91) ∧ cfg.CONFIG_MFD_CS47L90 = false)
  ∨ ((type = ids.CS47L92 ∨ type = ids.CS47L93) ∧ cfg.CONFIG_MFD_CS47L92 = false)

instance (ids : madera_type_ids) (cfg : Kconfig) (type : Nat) :
    Decidable (family_disabled ids cfg type) := by
  unfold family_disabled
  infer_instance

end MaderaSpi

/-! # Theorems -/

namespace TegraCirrus

open CModel snd_soc_bias_level madera_pll_id madera_clk_src madera_clk_id

/-! ## What each function does, as equations -/

theorem tegra_cirrus_clear_flls_eq (hw : Hw) (tr : List Event) :
    tegra_cirrus_clear_flls hw tr =
      (hw tr (.snd_soc_codec_set_pll MADERA_FLL1_REFCLK MADERA_FLL_SRC_NONE 0 0),
        tr ++ [.call (.snd_soc_codec_set_pll MADERA_FLL1_REFCLK MADERA_FLL_SRC_NONE 0 0)
                (hw tr (.snd_soc_codec_set_pll MADERA_FLL1_REFCLK MADERA_FLL_SRC_NONE 0 0))]
          ++ (if hw tr (.snd_soc_codec_set_pll MADERA_FLL1_REFCLK MADERA_FLL_SRC_NONE 0 0) = 0
              then []
              else [.dev_warn "setting FLL1_REFCLK to zero failed: %d\n"
                [hw tr (.snd_soc_codec_set_pll MADERA_FLL1_REFCLK MADERA_FLL_SRC_NONE 0 0)]])) := by
  by_cases h : hw tr (.snd_soc_codec_set_pll MADERA_FLL1_REFCLK MADERA_FLL_SRC_NONE 0 0) = 0 <;>
    simp [tegra_cirrus_clear_flls, Stmt.run, core_call, emit, creturn, bind, Stmt.bind,
      pure, h]

theorem tegra_cirrus_set_fll_eq (hw : Hw) (clk_freq : Nat) (tr : List Event) :
    tegra_cirrus_set_fll hw clk_freq tr =
      (hw tr (.snd_soc_codec_set_pll MADERA_FLL1_REFCLK MADERA_CLK_SRC_MCLK1 AUD_MCLK clk_freq),
        tr ++ [.call (.snd_soc_codec_set_pll MADERA_FLL1_REFCLK MADERA_CLK_SRC_MCLK1 AUD_MCLK
                  clk_freq)
                (hw tr (.snd_soc_codec_set_pll MADERA_FLL1_REFCLK MADERA_CLK_SRC_MCLK1 AUD_MCLK
                  clk_freq))]
          ++ (if hw tr (.snd_soc_codec_set_pll MADERA_FLL1_REFCLK MADERA_CLK_SRC_MCLK1 AUD_MCLK
                  clk_freq) = 0
              then []
              else [.dev_err "Failed to set FLL1 to %d: %d\n"
                [(clk_freq : Int),
                  hw tr (.snd_soc_codec_set_pll MADERA_FLL1_REFCLK MADERA_CLK_SRC_MCLK1 AUD_MCLK
                    clk_freq)]])
          ++ [.usleep_range 1000 2000]) := by
  by_cases h : hw tr (.snd_soc_codec_set_pll MADERA_FLL1_REFCLK MADERA_CLK_SRC_MCLK1 AUD_MCLK
      clk_freq) = 0 <;>
    simp [tegra_cirrus_set_fll, Stmt.run, core_call, emit, creturn, bind, Stmt.bind,
      pure, h]

theorem set_bias_level_other_dev (hw : Hw) (card : snd_soc_card)
    (dapm : snd_soc_dapm_context) (level : snd_soc_bias_level) (tr : List Event)
    (hdev : dapm.dev ≠ card.codec_dai_dev) :
    tegra_cirrus_set_bias_level hw card dapm level tr = (0, tr) := by
  simp [tegra_cirrus_set_bias_level, Stmt.run, creturn, bind, Stmt.bind, hdev]

theorem set_bias_level_post_other_dev (hw : Hw) (card : snd_soc_card)
    (dapm : snd_soc_dapm_context) (level : snd_soc_bias_level) (tr : List Event)
    (hdev : dapm.dev ≠ card.codec_dai_dev) :
    tegra_cirrus_set_bias_level_post hw card dapm level tr = (0, tr) := by
  simp [tegra_cirrus_set_bias_level_post, Stmt.run, creturn, bind, Stmt.bind, hdev]

theorem set_bias_level_not_prepare (hw : Hw) (card : snd_soc_card)
    (dapm : snd_soc_dapm_context) (level : snd_soc_bias_level) (tr : List Event)
    (hlevel : level ≠ SND_SOC_BIAS_PREPARE) :
    tegra_cirrus_set_bias_level hw card dapm level tr = (0, tr) := by
  by_cases hdev : dapm.dev = card.codec_dai_dev <;> cases level <;>
    simp_all [tegra_cirrus_set_bias_level, Stmt.run, creturn, bind, Stmt.bind, pure]

theorem set_bias_level_already_on (hw : Hw) (card : snd_soc_card)
    (dapm : snd_soc_dapm_context) (level : snd_soc_bias_level) (tr : List Event)
    (hon : dapm.bias_level = SND_SOC_BIAS_ON) :
    tegra_cirrus_set_bias_level hw card dapm level tr = (0, tr) := by
  by_cases hdev : dapm.dev = card.codec_dai_dev <;> cases level <;>
    simp_all [tegra_cirrus_set_bias_level, Stmt.run, creturn, bind, Stmt.bind, pure]

theorem set_bias_level_post_not_standby (hw : Hw) (card : snd_soc_card)
    (dapm : snd_soc_dapm_context) (level : snd_soc_bias_level) (tr : List Event)
    (hlevel : level ≠ SND_SOC_BIAS_STANDBY) :
    tegra_cirrus_set_bias_level_post hw card dapm level tr = (0, tr) := by
  by_cases hdev : dapm.dev = card.codec_dai_dev <;> cases level <;>
    simp_all [tegra_cirrus_set_bias_level_post, Stmt.run, creturn, bind, Stmt.bind, pure]

theorem set_bias_level_prepare (hw : Hw) (card : snd_soc_card)
    (dapm : snd_soc_dapm_context) (tr : List Event)
    (hdev : dapm.dev = card.codec_dai_dev) (hon : dapm.bias_level ≠ SND_SOC_BIAS_ON) :
    tegra_cirrus_set_bias_level hw card dapm SND_SOC_BIAS_PREPARE tr =
      ((tegra_cirrus_set_fll hw CS47L35_MAX_SYSCLK_1 (tr ++ [.mutex_lock])).1,
        (tegra_cirrus_set_fll hw CS47L35_MAX_SYSCLK_1 (tr ++ [.mutex_lock])).2
          ++ (if (tegra_cirrus_set_fll hw CS47L35_MAX_SYSCLK_1 (tr ++ [.mutex_lock])).1 = 0
              then [] else [.dev_err "set_bias: Failed to set FLL1\n" []])
          ++ [.mutex_unlock]) := by
  by_cases h : (tegra_cirrus_set_fll hw CS47L35_MAX_SYSCLK_1 (tr ++ [.mutex_lock])).1 = 0 <;>
    simp [tegra_cirrus_set_bias_level, Stmt.run, Stmt.call, emit, creturn, bind, Stmt.bind,
      pure, hdev, hon, h]

theorem set_bias_level_post_standby (hw : Hw) (card : snd_soc_card)
    (dapm : snd_soc_dapm_context) (tr : List Event)
    (hdev : dapm.dev = card.codec_dai_dev) :
    tegra_cirrus_set_bias_level_post hw card dapm SND_SOC_BIAS_STANDBY tr =
      (0, (tegra_cirrus_clear_flls hw (tr ++ [.mutex_lock])).2
          ++ (if (tegra_cirrus_clear_flls hw (tr ++ [.mutex_lock])).1 = 0
              then [] else [.dev_err "set_bias_post: failed to clear FLLs\n" []])
          ++ [.mutex_unlock]) := by
  by_cases h : (tegra_cirrus_clear_flls hw (tr ++ [.mutex_lock])).1 = 0 <;>
    simp [tegra_cirrus_set_bias_level_post, Stmt.run, Stmt.call, emit, creturn, bind,
      Stmt.bind, pure, hdev, h]

theorem lock_held_append_unlock (tr : List Event) :
    lock_held (tr ++ [.mutex_unlock]) = false := by
  simp [lock_held, List.foldl_append]

/-- C1: on the codec's own DAPM context, a request for PREPARE while the current bias
level is not ON makes the pre hook take the lock, program FLL1 once (reference MCLK1 at
12288000 Hz, output 98304000 Hz), and release the lock.  The programming step is one
call of `tegra_cirrus_set_fll`, which ends with its settle sleep; failures are logged.
The lock operations and sound-core calls the hook performs are exactly lock, that one
write, unlock; the lock is free afterwards whatever the write returned. -/
theorem C1_pre_hook_prepare_sequence (hw : Hw) (card : snd_soc_card)
    (dapm : snd_soc_dapm_context) (tr : List Event)
    (hdev : dapm.dev = card.codec_dai_dev) (hon : dapm.bias_level ≠ SND_SOC_BIAS_ON) :
    let req := Request.snd_soc_codec_set_pll MADERA_FLL1_REFCLK MADERA_CLK_SRC_MCLK1
      12288000 98304000
    let r := hw (tr ++ [.mutex_lock]) req
    let out := tegra_cirrus_set_bias_level hw card dapm SND_SOC_BIAS_PREPARE tr
    out.2 = tr ++ ([.mutex_lock, .call req r]
        ++ (if r = 0 then [] else [.dev_err "Failed to set FLL1 to %d: %d\n" [98304000, r]])
        ++ [.usleep_range 1000 2000]
        ++ (if r = 0 then [] else [.dev_err "set_bias: Failed to set FLL1\n" []])
        ++ [.mutex_unlock])
    ∧ (out.2.drop tr.length).filter is_lock_or_call = [.mutex_lock, .call req r, .mutex_unlock]
    ∧ lock_held out.2 = false
    ∧ out.2 = (tegra_cirrus_set_fll hw 98304000 (tr ++ [.mutex_lock])).2
        ++ (if r = 0 then [] else [.dev_err "set_bias: Failed to set FLL1\n" []])
        ++ [.mutex_unlock] := by
  intro req r out
  have hcall : out.2 = (tegra_cirrus_set_fll hw 98304000 (tr ++ [.mutex_lock])).2
        ++ (if r = 0 then [] else [.dev_err "set_bias: Failed to set FLL1\n" []])
        ++ [.mutex_unlock] := by
    simp only [out, set_bias_level_prepare hw card dapm tr hdev hon, tegra_cirrus_set_fll_eq]
    simp [r, req, AUD_MCLK, CS47L35_MAX_SYSCLK_1]
  have hout : out.2 = tr ++ ([.mutex_lock, .call req r]
        ++ (if r = 0 then [] else [.dev_err "Failed to set FLL1 to %d: %d\n" [98304000, r]])
        ++ [.usleep_range 1000 2000]
        ++ (if r = 0 then [] else [.dev_err "set_bias: Failed to set FLL1\n" []])
        ++ [.mutex_unlock]) := by
    simp only [out, set_bias_level_prepare hw card dapm tr hdev hon, tegra_cirrus_set_fll_eq]
    by_cases h : r = 0 <;>
      simp_all [r, req, AUD_MCLK, CS47L35_MAX_SYSCLK_1]
  refine ⟨hout, ?_, ?_, hcall⟩
  · rw [hout, List.drop_left]
    by_cases h : r = 0 <;> simp [h, is_lock_or_call]
  · rw [hout]
    simp only [← List.append_assoc]
    exact lock_held_append_unlock _

/-- Witness for C1: the hook on device 7 of a card whose codec DAI device is 7, going
from STANDBY to PREPARE on hardware that rejects the programming with -22. -/
theorem C1_pre_hook_prepare_sequence_witness :
    (tegra_cirrus_set_bias_level (fun _ _ => -22) ⟨1, 7⟩ ⟨7, SND_SOC_BIAS_STANDBY⟩
        SND_SOC_BIAS_PREPARE []).2
      = [.mutex_lock,
          .call (.snd_soc_codec_set_pll MADERA_FLL1_REFCLK MADERA_CLK_SRC_MCLK1
            12288000 98304000) (-22),
          .dev_err "Failed to set FLL1 to %d: %d\n" [98304000, -22],
          .usleep_range 1000 2000,
          .dev_err "set_bias: Failed to set FLL1\n" [],
          .mutex_unlock] := by
  have h := (C1_pre_hook_prepare_sequence (fun _ _ => -22) ⟨1, 7⟩
    ⟨7, SND_SOC_BIAS_STANDBY⟩ [] rfl (by decide)).1
  simpa using h

/-- C2 fails: with hardware that rejects the FLL1 programming with -22, the pre hook
for the transition Off to Prepare returns -22, not 0. -/
theorem C2_counterexample :
    (tegra_cirrus_set_bias_level (fun _ _ => -22) ⟨1, 7⟩ ⟨7, SND_SOC_BIAS_OFF⟩
        SND_SOC_BIAS_PREPARE []).1 = -22
    ∧ (tegra_cirrus_set_bias_level (fun _ _ => -22) ⟨1, 7⟩ ⟨7, SND_SOC_BIAS_OFF⟩
        SND_SOC_BIAS_PREPARE []).1 ≠ 0 := by
  have h : (tegra_cirrus_set_bias_level (fun _ _ => -22) ⟨1, 7⟩ ⟨7, SND_SOC_BIAS_OFF⟩
      SND_SOC_BIAS_PREPARE []).1 = -22 := by
    rw [set_bias_level_prepare _ _ _ _ rfl (by decide), tegra_cirrus_set_fll_eq]
  exact ⟨h, by rw [h]; decide⟩

/-- C2, amended: the pre hook returns 0 and does nothing on every path on which it does
not program FLL1; when it does (codec's own context, level PREPARE, current bias not ON)
it returns the result of the FLL1 programming call unchanged, so a rejection by the
hardware is handed to the caller, and in that case it logs the failure twice (once in
`tegra_cirrus_set_fll`, once in the hook) before releasing the lock; the lock is
released in either case. -/
theorem C2_pre_hook_result (hw : Hw) (card : snd_soc_card)
    (dapm : snd_soc_dapm_context) (level : snd_soc_bias_level) (tr : List Event) :
    (tegra_cirrus_set_bias_level hw card dapm level tr).1 =
      (if dapm.dev = card.codec_dai_dev ∧ level = SND_SOC_BIAS_PREPARE
          ∧ dapm.bias_level ≠ SND_SOC_BIAS_ON
        then hw (tr ++ [.mutex_lock])
          (.snd_soc_codec_set_pll MADERA_FLL1_REFCLK MADERA_CLK_SRC_MCLK1 12288000 98304000)
        else 0)
    ∧ (lock_held tr = false →
        lock_held (tegra_cirrus_set_bias_level hw card dapm level tr).2 = false)
    ∧ (tegra_cirrus_set_bias_level hw card dapm level tr).2 =
      (if dapm.dev = card.codec_dai_dev ∧ level = SND_SOC_BIAS_PREPARE
          ∧ dapm.bias_level ≠ SND_SOC_BIAS_ON
        then
          tr ++ ([.mutex_lock,
              .call (.snd_soc_codec_set_pll MADERA_FLL1_REFCLK MADERA_CLK_SRC_MCLK1
                12288000 98304000)
                (hw (tr ++ [.mutex_lock]) (.snd_soc_codec_set_pll MADERA_FLL1_REFCLK
                  MADERA_CLK_SRC_MCLK1 12288000 98304000))]
            ++ (if hw (tr ++ [.mutex_lock]) (.snd_soc_codec_set_pll MADERA_FLL1_REFCLK
                  MADERA_CLK_SRC_MCLK1 12288000 98304000) = 0
                then []
                else [.dev_err "Failed to set FLL1 to %d: %d\n"
                  [98304000, hw (tr ++ [.mutex_lock]) (.snd_soc_codec_set_pll
                    MADERA_FLL1_REFCLK MADERA_CLK_SRC_MCLK1 12288000 98304000)]])
            ++ [.usleep_range 1000 2000]
            ++ (if hw (tr ++ [.mutex_lock]) (.snd_soc_codec_set_pll MADERA_FLL1_REFCLK
                  MADERA_CLK_SRC_MCLK1 12288000 98304000) = 0
                then []
                else [.dev_err "set_bias: Failed to set FLL1\n" []])
            ++ [.mutex_unlock])
        else tr) := by
  by_cases hdev : dapm.dev = card.codec_dai_dev
  · by_cases hlevel : level = SND_SOC_BIAS_PREPARE
    · by_cases hon : dapm.bias_level = SND_SOC_BIAS_ON
      · simp [set_bias_level_already_on hw card dapm level tr hon, hon]
      · subst hlevel
        refine ⟨?_, fun _ => ?_, ?_⟩
        · simp [set_bias_level_prepare hw card dapm tr hdev hon, tegra_cirrus_set_fll_eq,
            hdev, hon, AUD_MCLK, CS47L35_MAX_SYSCLK_1]
        · rw [set_bias_level_prepare hw card dapm tr hdev hon]
          exact lock_held_append_unlock _
        · rw [set_bias_level_prepare hw card dapm tr hdev hon, tegra_cirrus_set_fll_eq]
          by_cases hr : hw (tr ++ [.mutex_lock]) (.snd_soc_codec_set_pll MADERA_FLL1_REFCLK
              MADERA_CLK_SRC_MCLK1 12288000 98304000) = 0 <;>
            simp [hdev, hon, hr, AUD_MCLK, CS47L35_MAX_SYSCLK_1]
    · simp [set_bias_level_not_prepare hw card dapm level tr hlevel, hlevel]
  · simp [set_bias_level_other_dev hw card dapm level tr hdev, hdev]

/-- Witness for C2 (amended): from the empty history, in which the lock is free, a
programming rejected with -22 is logged twice and the lock is free again afterwards. -/
theorem C2_pre_hook_result_witness :
    lock_held (tegra_cirrus_set_bias_level (fun _ _ => -22) ⟨1, 7⟩ ⟨7, SND_SOC_BIAS_OFF⟩
        SND_SOC_BIAS_PREPARE []).2 = false
    ∧ (tegra_cirrus_set_bias_level (fun _ _ => -22) ⟨1, 7⟩ ⟨7, SND_SOC_BIAS_OFF⟩
        SND_SOC_BIAS_PREPARE []).2
      = [.mutex_lock,
          .call (.snd_soc_codec_set_pll MADERA_FLL1_REFCLK MADERA_CLK_SRC_MCLK1
            12288000 98304000) (-22),
          .dev_err "Failed to set FLL1 to %d: %d\n" [98304000, -22],
          .usleep_range 1000 2000,
          .dev_err "set_bias: Failed to set FLL1\n" [],
          .mutex_unlock] := by
  have h := C2_pre_hook_result (fun _ _ => -22) ⟨1, 7⟩ ⟨7, SND_SOC_BIAS_OFF⟩
    SND_SOC_BIAS_PREPARE []
  exact ⟨h.2.1 rfl, by simpa using h.2.2⟩

/-- C3: on the codec's own DAPM context the post hook for STANDBY takes the lock, issues
exactly one FLL1 write with source NONE and both frequencies 0, logs if that write
failed, releases the lock, and returns 0 whether the write succeeded or not. -/
theorem C3_post_hook_standby_sequence (hw : Hw) (card : snd_soc_card)
    (dapm : snd_soc_dapm_context) (tr : List Event)
    (hdev : dapm.dev = card.codec_dai_dev) :
    let req := Request.snd_soc_codec_set_pll MADERA_FLL1_REFCLK MADERA_FLL_SRC_NONE 0 0
    let r := hw (tr ++ [.mutex_lock]) req
    let out := tegra_cirrus_set_bias_level_post hw card dapm SND_SOC_BIAS_STANDBY tr
    out.1 = 0
    ∧ out.2 = tr ++ ([.mutex_lock, .call req r]
        ++ (if r = 0 then []
            else [.dev_warn "setting FLL1_REFCLK to zero failed: %d\n" [r],
                  .dev_err "set_bias_post: failed to clear FLLs\n" []])
        ++ [.mutex_unlock])
    ∧ (out.2.drop tr.length).filter is_lock_or_call = [.mutex_lock, .call req r, .mutex_unlock]
    ∧ lock_held out.2 = false := by
  intro req r out
  have hout : out.2 = tr ++ ([.mutex_lock, .call req r]
        ++ (if r = 0 then []
            else [.dev_warn "setting FLL1_REFCLK to zero failed: %d\n" [r],
                  .dev_err "set_bias_post: failed to clear FLLs\n" []])
        ++ [.mutex_unlock]) := by
    simp only [out, set_bias_level_post_standby hw card dapm tr hdev,
      tegra_cirrus_clear_flls_eq]
    by_cases h : r = 0 <;> simp_all [r, req]
  refine ⟨?_, hout, ?_, ?_⟩
  · simp [out, set_bias_level_post_standby hw card dapm tr hdev]
  · rw [hout, List.drop_left]
    by_cases h : r = 0 <;> simp [h, is_lock_or_call]
  · rw [hout]
    simp only [← List.append_assoc]
    exact lock_held_append_unlock _

/-- Witness for C3: the post hook for STANDBY on hardware whose disable write fails
with -5 still returns 0. -/
theorem C3_post_hook_standby_sequence_witness :
    (tegra_cirrus_set_bias_level_post (fun _ _ => -5) ⟨1, 7⟩ ⟨7, SND_SOC_BIAS_STANDBY⟩
        SND_SOC_BIAS_STANDBY []).1 = 0 :=
  (C3_post_hook_standby_sequence (fun _ _ => -5) ⟨1, 7⟩ ⟨7, SND_SOC_BIAS_STANDBY⟩ [] rfl).1

/-- C4: for a DAPM context whose device is not the codec DAI's device, both hooks
return 0 and leave the event history untouched (no lock operation, no FLL write, no
sleep), for every requested level and every current bias level. -/
theorem C4_device_identity_guard (hw : Hw) (card : snd_soc_card)
    (dapm : snd_soc_dapm_context) (level : snd_soc_bias_level) (tr : List Event)
    (hdev : dapm.dev ≠ card.codec_dai_dev) :
    tegra_cirrus_set_bias_level hw card dapm level tr = (0, tr)
    ∧ tegra_cirrus_set_bias_level_post hw card dapm level tr = (0, tr) :=
  ⟨set_bias_level_other_dev hw card dapm level tr hdev,
    set_bias_level_post_other_dev hw card dapm level tr hdev⟩

/-- Witness for C4: a context on device 8 of a card whose codec DAI device is 7. -/
theorem C4_device_identity_guard_witness :
    tegra_cirrus_set_bias_level (fun _ _ => -22) ⟨1, 7⟩ ⟨8, SND_SOC_BIAS_OFF⟩
        SND_SOC_BIAS_PREPARE [] = (0, [])
    ∧ tegra_cirrus_set_bias_level_post (fun _ _ => -22) ⟨1, 7⟩ ⟨8, SND_SOC_BIAS_OFF⟩
        SND_SOC_BIAS_PREPARE [] = (0, []) :=
  C4_device_identity_guard (fun _ _ => -22) ⟨1, 7⟩ ⟨8, SND_SOC_BIAS_OFF⟩
    SND_SOC_BIAS_PREPARE [] (by decide)

/-- C8: every call of `tegra_cirrus_set_fll` issues the FLL1 configuration write, then
(after logging a failure) sleeps with `usleep_range(1000, 2000)` as its last action,
and returns exactly the result of the write, for every frequency and every outcome. -/
theorem C8_settle_contract (hw : Hw) (clk_freq : Nat) (tr : List Event) :
    let req := Request.snd_soc_codec_set_pll MADERA_FLL1_REFCLK MADERA_CLK_SRC_MCLK1
      12288000 clk_freq
    let r := hw tr req
    let out := tegra_cirrus_set_fll hw clk_freq tr
    out.1 = r
    ∧ out.2 = tr ++ ([.call req r]
        ++ (if r = 0 then []
            else [.dev_err "Failed to set FLL1 to %d: %d\n" [(clk_freq : Int), r]])
        ++ [.usleep_range 1000 2000])
    ∧ out.2.getLast? = some (.usleep_range 1000 2000)
    ∧ (out.2.drop tr.length).head? = some (.call req r) := by
  intro req r out
  have hout : out = (r, tr ++ ([.call req r]
        ++ (if r = 0 then []
            else [.dev_err "Failed to set FLL1 to %d: %d\n" [(clk_freq : Int), r]])
        ++ [.usleep_range 1000 2000])) := by
    simp [out, r, req, tegra_cirrus_set_fll_eq, AUD_MCLK]
  refine ⟨by rw [hout], by rw [hout], ?_, ?_⟩
  · rw [hout]
    by_cases h : r = 0 <;> simp [h]
  · rw [hout, List.drop_left]
    simp

/-- C5: on the codec's own context the pre hook is a no-op returning 0 whenever the
requested level is not PREPARE or the current bias level is already ON, and the post
hook is a no-op returning 0 whenever the requested level is not STANDBY; and over the
transitions Standby to Prepare to On to Prepare exactly one FLL enable write is added
to the history, whatever the hardware answers and whatever the framework does with a
failing pre hook. -/
theorem C5_other_transitions_noop (hw : Hw) (abort_on_error : Bool) (card : snd_soc_card)
    (dapm : snd_soc_dapm_context) (level : snd_soc_bias_level) (tr : List Event)
    (hdev : dapm.dev = card.codec_dai_dev) :
    ((level ≠ SND_SOC_BIAS_PREPARE ∨ dapm.bias_level = SND_SOC_BIAS_ON) →
      tegra_cirrus_set_bias_level hw card dapm level tr = (0, tr))
    ∧ (level ≠ SND_SOC_BIAS_STANDBY →
      tegra_cirrus_set_bias_level_post hw card dapm level tr = (0, tr))
    ∧ List.countP is_fll_enable
        (run_transitions hw abort_on_error card
          { current_bias := SND_SOC_BIAS_STANDBY, trace := tr }
          [SND_SOC_BIAS_PREPARE, SND_SOC_BIAS_ON, SND_SOC_BIAS_PREPARE]).trace
      = List.countP is_fll_enable tr + 1 := by
  have _ := hdev
  refine ⟨?_, ?_, ?_⟩
  · rintro (h | h)
    · exact set_bias_level_not_prepare hw card dapm level tr h
    · exact set_bias_level_already_on hw card dapm level tr h
  · exact set_bias_level_post_not_standby hw card dapm level tr
  · have hpre := set_bias_level_prepare hw card
      { dev := card.codec_dai_dev, bias_level := SND_SOC_BIAS_STANDBY } tr rfl (by simp)
    have hcount : List.countP is_fll_enable
        (tegra_cirrus_set_bias_level hw card
          { dev := card.codec_dai_dev, bias_level := SND_SOC_BIAS_STANDBY }
          SND_SOC_BIAS_PREPARE tr).2 = List.countP is_fll_enable tr + 1 := by
      rw [hpre, tegra_cirrus_set_fll_eq]
      by_cases h : hw (tr ++ [.mutex_lock]) (.snd_soc_codec_set_pll MADERA_FLL1_REFCLK
          MADERA_CLK_SRC_MCLK1 AUD_MCLK CS47L35_MAX_SYSCLK_1) = 0 <;>
        simp [h, List.countP_append, is_fll_enable]
    cases abort_on_error <;>
      by_cases hr : (tegra_cirrus_set_bias_level hw card
          { dev := card.codec_dai_dev, bias_level := SND_SOC_BIAS_STANDBY }
          SND_SOC_BIAS_PREPARE tr).1 = 0 <;>
      simp [run_transitions, dapm_transition, hr, hcount, set_bias_level_post_not_standby,
        set_bias_level_not_prepare, set_bias_level_already_on]

/-- Witness for C5: the three parts at a concrete card, from the empty history, on
hardware that accepts every write. -/
theorem C5_other_transitions_noop_witness :
    tegra_cirrus_set_bias_level (fun _ _ => 0) ⟨1, 7⟩ ⟨7, SND_SOC_BIAS_ON⟩
        SND_SOC_BIAS_PREPARE [] = (0, [])
    ∧ tegra_cirrus_set_bias_level_post (fun _ _ => 0) ⟨1, 7⟩ ⟨7, SND_SOC_BIAS_ON⟩
        SND_SOC_BIAS_PREPARE [] = (0, [])
    ∧ List.countP is_fll_enable
        (run_transitions (fun _ _ => 0) true ⟨1, 7⟩
          { current_bias := SND_SOC_BIAS_STANDBY, trace := [] }
          [SND_SOC_BIAS_PREPARE, SND_SOC_BIAS_ON, SND_SOC_BIAS_PREPARE]).trace = 1 := by
  have h := C5_other_transitions_noop (fun _ _ => 0) true ⟨1, 7⟩ ⟨7, SND_SOC_BIAS_ON⟩
    SND_SOC_BIAS_PREPARE [] rfl
  exact ⟨h.1 (Or.inr rfl), h.2.1 (by decide), by simpa using h.2.2⟩

theorem fll_active_append_disable (tr : List Event) (pll_id : madera_pll_id)
    (freq_in freq_out : Nat) (rest : List Event)
    (hrest : ∀ e ∈ rest, is_fll_write e = false) :
    fll_active (tr ++ [.call (.snd_soc_codec_set_pll pll_id MADERA_FLL_SRC_NONE freq_in
      freq_out) 0] ++ rest) = false := by
  unfold fll_active
  rw [List.foldl_append, List.foldl_append]
  simp only [List.foldl_cons, List.foldl_nil, if_true, bne_self_eq_false]
  induction rest with
  | nil => rfl
  | cons e rest ih =>
    have he := hrest e (List.mem_cons_self _ _)
    have ih2 := ih (fun x hx => hrest x (List.mem_cons_of_mem _ hx))
    cases e with
    | call req ret =>
      cases req <;> simp_all [is_fll_write]
    | _ => simpa using ih2

theorem fll_active_append_failed (tr rest : List Event)
    (hrest : ∀ e ∈ rest, ∀ req ret, e = .call req ret → ret ≠ 0) :
    fll_active (tr ++ rest) = fll_active tr := by
  unfold fll_active
  rw [List.foldl_append]
  generalize List.foldl _ false tr = b
  induction rest generalizing b with
  | nil => rfl
  | cons e rest ih =>
    have ih2 := ih (fun x hx => hrest x (List.mem_cons_of_mem _ hx))
    cases e with
    | call req ret =>
      have hne := hrest _ (List.mem_cons_self _ _) req ret rfl
      cases req <;> simp [hne, ih2]
    | _ => simpa using ih2 b

theorem dapm_transition_keeps_invariant (hw : Hw) (abort_on_error : Bool)
    (card : snd_soc_card) (s : SequencerState) (level : snd_soc_bias_level)
    (hdis : ∀ tr, hw tr (.snd_soc_codec_set_pll MADERA_FLL1_REFCLK MADERA_FLL_SRC_NONE 0 0) = 0)
    (hinv : fll_off_when_idle s)
    (hoff : level = SND_SOC_BIAS_OFF →
      s.current_bias = SND_SOC_BIAS_OFF ∨ s.current_bias = SND_SOC_BIAS_STANDBY) :
    fll_off_when_idle (dapm_transition hw abort_on_error card s level) := by
  unfold fll_off_when_idle at *
  cases level with
  | SND_SOC_BIAS_OFF =>
    intro _
    simpa [dapm_transition, set_bias_level_not_prepare, set_bias_level_post_not_standby]
      using hinv (hoff rfl)
  | SND_SOC_BIAS_STANDBY =>
    intro _
    have hpost := set_bias_level_post_standby hw card
      { dev := card.codec_dai_dev, bias_level := SND_SOC_BIAS_STANDBY } s.trace rfl
    simp only [dapm_transition, set_bias_level_not_prepare hw card _ SND_SOC_BIAS_STANDBY
      s.trace (by decide), hpost, tegra_cirrus_clear_flls_eq, hdis]
    simp only [bne_self_eq_false, Bool.and_false, Bool.false_eq_true, if_false, if_true,
      List.append_nil]
    exact fll_active_append_disable _ _ _ _ _ (by simp [is_fll_write])
  | SND_SOC_BIAS_PREPARE =>
    by_cases hon : s.current_bias = SND_SOC_BIAS_ON
    · intro h
      simp [dapm_transition, set_bias_level_already_on, set_bias_level_post_not_standby,
        hon] at h
    · have hpre := set_bias_level_prepare hw card
        { dev := card.codec_dai_dev, bias_level := s.current_bias } s.trace rfl hon
      by_cases hstop : (abort_on_error && (tegra_cirrus_set_bias_level hw card
          { dev := card.codec_dai_dev, bias_level := s.current_bias }
          SND_SOC_BIAS_PREPARE s.trace).1 != 0) = true
      · intro h
        have hbias : (dapm_transition hw abort_on_error card s
            SND_SOC_BIAS_PREPARE).current_bias = s.current_bias := by
          simp only [dapm_transition, hstop, if_true]
        rw [hbias] at h
        have hr : (tegra_cirrus_set_fll hw CS47L35_MAX_SYSCLK_1
            (s.trace ++ [.mutex_lock])).1 ≠ 0 := by
          have h2 := hstop
          rw [hpre] at h2
          simp only [Bool.and_eq_true, bne_iff_ne] at h2
          exact h2.2
        have htrace : (dapm_transition hw abort_on_error card s
            SND_SOC_BIAS_PREPARE).trace = (tegra_cirrus_set_bias_level hw card
              { dev := card.codec_dai_dev, bias_level := s.current_bias }
              SND_SOC_BIAS_PREPARE s.trace).2 := by
          simp only [dapm_transition, hstop, if_true]
        rw [htrace, hpre]
        rw [tegra_cirrus_set_fll_eq] at hr ⊢
        simp only [List.append_assoc]
        rw [fll_active_append_failed]
        · exact hinv h
        · intro e he req ret hreq
          subst hreq
          simp only [hr, if_false] at he
          simp at he
          rcases he with ⟨_, h2⟩
          rw [h2]
          exact hr
      · intro h
        simp [dapm_transition, hstop] at h
  | SND_SOC_BIAS_ON =>
    intro h
    simp [dapm_transition, set_bias_level_not_prepare, set_bias_level_post_not_standby] at h

theorem visited_keep_invariant (hw : Hw) (abort_on_error : Bool) (card : snd_soc_card)
    (hdis : ∀ tr, hw tr (.snd_soc_codec_set_pll MADERA_FLL1_REFCLK MADERA_FLL_SRC_NONE 0 0) = 0)
    (seq : List snd_soc_bias_level) :
    ∀ s0 : SequencerState, fll_off_when_idle s0 →
      off_only_from_standby hw abort_on_error card s0 seq = true →
      ∀ s ∈ visited hw abort_on_error card s0 seq, fll_off_when_idle s := by
  induction seq with
  | nil =>
    intro s0 h0 _ s hs
    simp only [visited, List.mem_singleton] at hs
    rw [hs]
    exact h0
  | cons level rest ih =>
    intro s0 h0 hadm s hs
    simp only [off_only_from_standby, Bool.and_eq_true, Bool.or_eq_true, decide_eq_true_eq]
      at hadm
    simp only [visited, List.mem_cons] at hs
    rcases hs with hs | hs
    · rw [hs]
      exact h0
    · refine ih _ (dapm_transition_keeps_invariant hw abort_on_error card s0 level hdis h0 ?_)
        hadm.2 s hs
      intro hl
      rcases hadm.1 with (h | h) | h
      · exact absurd hl h
      · exact Or.inl h
      · exact Or.inr h

theorem run_transitions_mem_visited (hw : Hw) (abort_on_error : Bool) (card : snd_soc_card)
    (s0 : SequencerState) (seq : List snd_soc_bias_level) :
    run_transitions hw abort_on_error card s0 seq ∈ visited hw abort_on_error card s0 seq := by
  induction seq generalizing s0 with
  | nil => simp [run_transitions, visited]
  | cons level rest ih =>
    simp only [run_transitions, visited, List.mem_cons]
    exact Or.inr (ih _)

/-- C6 fails: starting from (bias Off, empty history, FLL not active), on hardware that
accepts the enable but rejects the disable write with -5, after the transitions
Off to Standby to Prepare to Standby the post hook has returned, the bias level is
Standby, and the most recent successful FLL1 write is still the enable. -/
theorem C6_counterexample :
    fll_active ([] : List Event) = false
    ∧ (run_transitions
        (fun _ req =>
          if req = .snd_soc_codec_set_pll MADERA_FLL1_REFCLK MADERA_FLL_SRC_NONE 0 0
          then -5 else 0)
        false ⟨1, 7⟩ { current_bias := SND_SOC_BIAS_OFF, trace := [] }
        [SND_SOC_BIAS_STANDBY, SND_SOC_BIAS_PREPARE, SND_SOC_BIAS_STANDBY]).current_bias
      = SND_SOC_BIAS_STANDBY
    ∧ fll_active (run_transitions
        (fun _ req =>
          if req = .snd_soc_codec_set_pll MADERA_FLL1_REFCLK MADERA_FLL_SRC_NONE 0 0
          then -5 else 0)
        false ⟨1, 7⟩ { current_bias := SND_SOC_BIAS_OFF, trace := [] }
        [SND_SOC_BIAS_STANDBY, SND_SOC_BIAS_PREPARE, SND_SOC_BIAS_STANDBY]).trace
      = true := by
  refine ⟨rfl, ?_, ?_⟩
  · simp [run_transitions, dapm_transition]
  · simp [run_transitions, dapm_transition, set_bias_level_not_prepare,
      set_bias_level_post_not_standby, set_bias_level_prepare, set_bias_level_post_standby,
      tegra_cirrus_set_fll_eq, tegra_cirrus_clear_flls_eq, fll_active]

/-- C6, amended: starting from (bias Off, FLL not active), along every sequence of bias
transitions of the codec's context in which Off is entered only from Standby or Off,
on every hardware whose FLL1 disable write never fails (enable writes may fail in any
pattern), and whatever the framework does with a failing pre hook: whenever control is
back with the framework and the bias level is Standby or Off, the FLL is not active. -/
theorem C6_invariant_when_disable_succeeds (hw : Hw) (abort_on_error : Bool)
    (card : snd_soc_card) (seq : List snd_soc_bias_level)
    (hdis : ∀ tr, hw tr (.snd_soc_codec_set_pll MADERA_FLL1_REFCLK MADERA_FLL_SRC_NONE 0 0) = 0)
    (hoff : off_only_from_standby hw abort_on_error card
      { current_bias := SND_SOC_BIAS_OFF, trace := [] } seq = true) :
    ∀ s ∈ visited hw abort_on_error card
        { current_bias := SND_SOC_BIAS_OFF, trace := [] } seq,
      (s.current_bias = SND_SOC_BIAS_OFF ∨ s.current_bias = SND_SOC_BIAS_STANDBY) →
        fll_active s.trace = false :=
  visited_keep_invariant hw abort_on_error card hdis seq _ (fun _ => rfl) hoff

/-- Witness for C6 (amended): hardware that accepts every write, over the transitions
Off to Standby to Prepare to On to Prepare to Standby to Off; the sequence enters Off
from Standby, and in the final state (bias Off) the FLL is not active. -/
theorem C6_invariant_when_disable_succeeds_witness :
    off_only_from_standby (fun _ _ => 0) true ⟨1, 7⟩
        { current_bias := SND_SOC_BIAS_OFF, trace := [] }
        [SND_SOC_BIAS_STANDBY, SND_SOC_BIAS_PREPARE, SND_SOC_BIAS_ON, SND_SOC_BIAS_PREPARE,
          SND_SOC_BIAS_STANDBY, SND_SOC_BIAS_OFF] = true
    ∧ fll_active (run_transitions (fun _ _ => 0) true ⟨1, 7⟩
        { current_bias := SND_SOC_BIAS_OFF, trace := [] }
        [SND_SOC_BIAS_STANDBY, SND_SOC_BIAS_PREPARE, SND_SOC_BIAS_ON, SND_SOC_BIAS_PREPARE,
          SND_SOC_BIAS_STANDBY, SND_SOC_BIAS_OFF]).trace = false := by
  have hadm : off_only_from_standby (fun _ _ => 0) true ⟨1, 7⟩
      { current_bias := SND_SOC_BIAS_OFF, trace := [] }
      [SND_SOC_BIAS_STANDBY, SND_SOC_BIAS_PREPARE, SND_SOC_BIAS_ON, SND_SOC_BIAS_PREPARE,
        SND_SOC_BIAS_STANDBY, SND_SOC_BIAS_OFF] = true := by
    simp [off_only_from_standby, dapm_transition, set_bias_level_not_prepare,
      set_bias_level_post_not_standby, set_bias_level_prepare, set_bias_level_already_on,
      tegra_cirrus_set_fll_eq]
  exact ⟨hadm, C6_invariant_when_disable_succeeds (fun _ _ => 0) true ⟨1, 7⟩ _
    (fun _ => rfl) hadm _ (run_transitions_mem_visited _ _ _ _ _)
    (Or.inl (by
      simp [run_transitions, dapm_transition, set_bias_level_not_prepare,
        set_bias_level_post_not_standby, set_bias_level_prepare, set_bias_level_already_on,
        tegra_cirrus_set_fll_eq]))⟩

theorem tegra_cirrus_late_probe_eq (hw : Hw) (tr : List Event) :
    tegra_cirrus_late_probe hw tr =
      (hw tr (.snd_soc_dai_set_sysclk MADERA_CLK_SYSCLK_1 0 0),
        tr ++ ([.call (.snd_soc_dai_set_sysclk MADERA_CLK_SYSCLK_1 0 0)
                (hw tr (.snd_soc_dai_set_sysclk MADERA_CLK_SYSCLK_1 0 0))]
          ++ (if hw tr (.snd_soc_dai_set_sysclk MADERA_CLK_SYSCLK_1 0 0) = 0 then []
              else [.dev_err "Failed to set CS47L35 codec dai clk domain: %d\n"
                [hw tr (.snd_soc_dai_set_sysclk MADERA_CLK_SYSCLK_1 0 0)]]))) := by
  by_cases h : hw tr (.snd_soc_dai_set_sysclk MADERA_CLK_SYSCLK_1 0 0) = 0 <;>
    simp [tegra_cirrus_late_probe, Stmt.run, core_call, emit, creturn, bind, Stmt.bind,
      pure, h]

/-- C7 fails: from the empty history (FLL not active) on hardware that accepts every
write, a disable still writes to the hardware, and two consecutive disables leave two
FLL writes where a single disable leaves one. -/
theorem C7_counterexample :
    fll_active ([] : List Event) = false
    ∧ (tegra_cirrus_clear_flls (fun _ _ => 0) []).2.filter is_fll_write
      = [.call (.snd_soc_codec_set_pll MADERA_FLL1_REFCLK MADERA_FLL_SRC_NONE 0 0) 0]
    ∧ (tegra_cirrus_clear_flls (fun _ _ => 0)
        (tegra_cirrus_clear_flls (fun _ _ => 0) []).2).2.filter is_fll_write
      ≠ (tegra_cirrus_clear_flls (fun _ _ => 0) []).2.filter is_fll_write := by
  refine ⟨rfl, ?_, ?_⟩
  · simp [tegra_cirrus_clear_flls_eq, is_fll_write]
  · simp [tegra_cirrus_clear_flls_eq, is_fll_write]

/-- C7, amended: a disable is unconditional.  Every call of `tegra_cirrus_clear_flls`
issues exactly one FLL1 write with source NONE and frequencies 0, whatever happened
before, and returns the result of that write; two consecutive disables issue two such
writes, the first of which is the write of a single disable; and two consecutive post
hooks for STANDBY on the codec's context both return 0 and likewise issue two writes. -/
theorem C7_disable_always_writes (hw : Hw) (card : snd_soc_card) (tr : List Event) :
    let req := Request.snd_soc_codec_set_pll MADERA_FLL1_REFCLK MADERA_FLL_SRC_NONE 0 0
    let d1 := tegra_cirrus_clear_flls hw tr
    let d2 := tegra_cirrus_clear_flls hw d1.2
    let dapm : snd_soc_dapm_context :=
      { dev := card.codec_dai_dev, bias_level := SND_SOC_BIAS_STANDBY }
    let p1 := tegra_cirrus_set_bias_level_post hw card dapm SND_SOC_BIAS_STANDBY tr
    let p2 := tegra_cirrus_set_bias_level_post hw card dapm SND_SOC_BIAS_STANDBY p1.2
    d1.1 = hw tr req
    ∧ d2.1 = hw d1.2 req
    ∧ d1.2.filter is_fll_write = tr.filter is_fll_write ++ [.call req d1.1]
    ∧ d2.2.filter is_fll_write = tr.filter is_fll_write ++ [.call req d1.1, .call req d2.1]
    ∧ p1.1 = 0 ∧ p2.1 = 0
    ∧ List.countP is_fll_write p1.2 = List.countP is_fll_write tr + 1
    ∧ List.countP is_fll_write p2.2 = List.countP is_fll_write tr + 2 := by
  intro req d1 d2 dapm p1 p2
  have hfilter : ∀ t : List Event,
      (tegra_cirrus_clear_flls hw t).2.filter is_fll_write
        = t.filter is_fll_write ++ [.call req (hw t req)] := by
    intro t
    rw [tegra_cirrus_clear_flls_eq]
    by_cases h : hw t req = 0 <;> simp [req, h, is_fll_write]
  have hcount : ∀ t : List Event,
      List.countP is_fll_write
          (tegra_cirrus_set_bias_level_post hw card dapm SND_SOC_BIAS_STANDBY t).2
        = List.countP is_fll_write t + 1 := by
    intro t
    rw [set_bias_level_post_standby hw card dapm t rfl, tegra_cirrus_clear_flls_eq]
    by_cases h : hw (t ++ [.mutex_lock]) req = 0 <;>
      simp [req, h, is_fll_write, List.countP_append]
  have hd1 : d1.1 = hw tr req := by simp [d1, req, tegra_cirrus_clear_flls_eq]
  have hd2 : d2.1 = hw d1.2 req := by simp [d2, req, tegra_cirrus_clear_flls_eq]
  refine ⟨hd1, hd2, ?_, ?_, ?_, ?_, hcount tr, ?_⟩
  · rw [hd1]
    exact hfilter tr
  · rw [hd2, hd1]
    simp only [d2]
    rw [hfilter d1.2]
    simp only [d1]
    rw [hfilter tr]
    simp [d1]
  · simp [p1, set_bias_level_post_standby hw card dapm tr rfl]
  · simp [p2, set_bias_level_post_standby hw card dapm p1.2 rfl]
  · simp only [p2]
    rw [hcount p1.2]
    simp only [p1]
    rw [hcount tr]

/-- C9: `tegra_cirrus_late_probe` makes exactly one sound-core call, setting the codec
DAI's clock to SYSCLK_1 with rate 0 and direction 0, logs when it failed, and returns
its result unchanged in both cases; the statements after the unconditional `return`
never run, so it performs no FLL write, no codec system-clock configuration and no
lock operation. -/
theorem C9_late_probe (hw : Hw) (tr : List Event) :
    let req := Request.snd_soc_dai_set_sysclk MADERA_CLK_SYSCLK_1 0 0
    let r := hw tr req
    let out := tegra_cirrus_late_probe hw tr
    out.1 = r
    ∧ out.2 = tr ++ ([.call req r]
        ++ (if r = 0 then []
            else [.dev_err "Failed to set CS47L35 codec dai clk domain: %d\n" [r]]))
    ∧ (out.2.drop tr.length).filter is_lock_or_call = [.call req r]
    ∧ (out.2.drop tr.length).filter is_fll_write = []
    ∧ (out.2.drop tr.length).filter is_codec_sysclk = []
    ∧ (out.2.drop tr.length).filter is_lock_op = [] := by
  intro req r out
  have hout : out = (r, tr ++ ([.call req r]
        ++ (if r = 0 then []
            else [.dev_err "Failed to set CS47L35 codec dai clk domain: %d\n" [r]]))) := by
    simp [out, r, req, tegra_cirrus_late_probe_eq]
  rw [hout]
  simp only [List.drop_left]
  by_cases h : r = 0 <;>
    simp [h, req, is_lock_or_call, is_fll_write, is_codec_sysclk, is_lock_op]

end TegraCirrus

namespace MaderaSpi

open CModel

theorem madera_spi_probe_switch_eq (ids : madera_type_ids) (cfg : Kconfig) (type : Nat)
    (tr : List Event) :
    madera_spi_probe_switch ids cfg type tr =
      if type = ids.CS47L15 then
        .next (if cfg.CONFIG_MFD_CS47L15
          then (some .cs47l15_16bit_spi_regmap, some .cs47l15_32bit_spi_regmap)
          else (none, none)) tr
      else if type = ids.CS47L35 then
        .next (if cfg.CONFIG_MFD_CS47L35
          then (some .cs47l35_16bit_spi_regmap, some .cs47l35_32bit_spi_regmap)
          else (none, none)) tr
      else if type = ids.CS47L85 ∨ type = ids.WM1840 then
        .next (if cfg.CONFIG_MFD_CS47L85
          then (some .cs47l85_16bit_spi_regmap, some .cs47l85_32bit_spi_regmap)
          else (none, none)) tr
      else if type = ids.CS47L90 ∨ type = ids.CS47L91 then
        .next (if cfg.CONFIG_MFD_CS47L90
          then (some .cs47l90_16bit_spi_regmap, some .cs47l90_32bit_spi_regmap)
          else (none, none)) tr
      else if type = ids.CS47L92 ∨ type = ids.CS47L93 then
        .next (if cfg.CONFIG_MFD_CS47L92
          then (some .cs47l92_16bit_spi_regmap, some .cs47l92_32bit_spi_regmap)
          else (none, none)) tr
      else
        .ret (-22) (tr ++ [.dev_err "Unknown Madera SPI device type %ld\n" [(type : Int)]]) := by
  unfold madera_spi_probe_switch
  split_ifs <;>
    simp_all [emit, creturn, bind, Stmt.bind, pure, EINVAL]

theorem madera_spi_probe_of_default (ids : madera_type_ids) (cfg : Kconfig) (env : ProbeEnv)
    (spi : spi_device) (tr t : List Event) (v : Int)
    (h : madera_spi_probe_switch ids cfg (probe_type spi)
      (tr ++ [.printk "madera_spi_probe\n"]) = .ret v t) :
    madera_spi_probe ids cfg env spi tr = (v, t) := by
  simp [madera_spi_probe, Stmt.run, emit, bind, Stmt.bind, h]

theorem madera_spi_probe_of_unset (ids : madera_type_ids) (cfg : Kconfig) (env : ProbeEnv)
    (spi : spi_device) (tr t : List Event) (r32 : Option regmap_config)
    (h : madera_spi_probe_switch ids cfg (probe_type spi)
      (tr ++ [.printk "madera_spi_probe\n"]) = .next (none, r32) t) :
    madera_spi_probe ids cfg env spi tr =
      (-22, t ++ [.dev_err "Kernel does not include support for %s\n"
        [(probe_type spi : Int)]]) := by
  simp [madera_spi_probe, Stmt.run, emit, creturn, bind, Stmt.bind, h, EINVAL]

theorem madera_spi_probe_of_set (ids : madera_type_ids) (cfg : Kconfig) (env : ProbeEnv)
    (spi : spi_device) (tr t : List Event) (c16 : regmap_config)
    (r32 : Option regmap_config)
    (h : madera_spi_probe_switch ids cfg (probe_type spi)
      (tr ++ [.printk "madera_spi_probe\n"]) = .next (some c16, r32) t) :
    ∃ rest, (madera_spi_probe ids cfg env spi tr).2 =
      t ++ .devm_kzalloc env.devm_kzalloc_ok :: rest := by
  cases hk : env.devm_kzalloc_ok
  · exact ⟨[], by
      simp [madera_spi_probe, Stmt.run, emit, creturn, bind, Stmt.bind, h, hk]⟩
  · cases h1 : env.devm_regmap_init_spi (some c16)
    · cases h2 : env.devm_regmap_init_spi r32
      · exact ⟨_, by
          simp [madera_spi_probe, Stmt.run, emit, creturn, bind, Stmt.bind, pure, h, hk, h1,
            h2]
          rfl⟩
      · exact ⟨_, by
          simp [madera_spi_probe, Stmt.run, emit, creturn, bind, Stmt.bind, pure, h, hk, h1,
            h2]
          rfl⟩
    · exact ⟨_, by
        simp [madera_spi_probe, Stmt.run, emit, creturn, bind, Stmt.bind, pure, h, hk, h1]
        rfl⟩

theorem switch_pairs_family (ids : madera_type_ids) (cfg : Kconfig) (type : Nat)
    (tr t : List Event) (r16 r32 : Option regmap_config)
    (h : madera_spi_probe_switch ids cfg type tr = .next (r16, r32) t) :
    t = tr ∧ ((r16 = none ∧ r32 = none) ∨
      ∃ c16 c32, r16 = some c16 ∧ r32 = some c32 ∧ c16.family = c32.family
        ∧ c16.width = 16 ∧ c32.width = 32) := by
  rw [madera_spi_probe_switch_eq] at h
  split_ifs at h <;>
    first
    | (simp only [Flow.next.injEq, Prod.mk.injEq] at h
       obtain ⟨⟨h1, h2⟩, h3⟩ := h
       subst h1 h2 h3
       simp [regmap_config.family, regmap_config.width])

theorem switch_classification (ids : madera_type_ids) (cfg : Kconfig) (type : Nat)
    (hnodup : ids.labels.Nodup) :
    (type ∉ ids.labels ∧ ∀ t0, madera_spi_probe_switch ids cfg type t0 =
        .ret (-22) (t0 ++ [.dev_err "Unknown Madera SPI device type %ld\n" [(type : Int)]]))
    ∨ (type ∈ ids.labels ∧ family_disabled ids cfg type
        ∧ ∀ t0, madera_spi_probe_switch ids cfg type t0 = .next (none, none) t0)
    ∨ (type ∈ ids.labels ∧ ¬ family_disabled ids cfg type
        ∧ ∃ c16 c32, (∀ t0, madera_spi_probe_switch ids cfg type t0 =
            .next (some c16, some c32) t0)
          ∧ c16.family = c32.family ∧ c16.width = 16 ∧ c32.width = 32) := by
  simp only [madera_type_ids.labels, List.nodup_cons, List.mem_cons, List.mem_singleton,
    List.not_mem_nil, or_false, not_or, List.nodup_nil, and_true, not_false_eq_true]
    at hnodup
  simp only [madera_spi_probe_switch_eq, family_disabled, madera_type_ids.labels,
    List.mem_cons, List.mem_singleton, List.not_mem_nil, or_false]
  by_cases h1 : type = ids.CS47L15
  · cases hc : cfg.CONFIG_MFD_CS47L15
    · simp_all
    · exact Or.inr (Or.inr ⟨by simp_all, by simp_all, .cs47l15_16bit_spi_regmap,
        .cs47l15_32bit_spi_regmap, by simp_all, rfl, rfl, rfl⟩)
  by_cases h2 : type = ids.CS47L35
  · cases hc : cfg.CONFIG_MFD_CS47L35
    · simp_all
    · exact Or.inr (Or.inr ⟨by simp_all, by simp_all, .cs47l35_16bit_spi_regmap,
        .cs47l35_32bit_spi_regmap, by simp_all, rfl, rfl, rfl⟩)
  by_cases h3 : type = ids.CS47L85
  · cases hc : cfg.CONFIG_MFD_CS47L85
    · simp_all
    · exact Or.inr (Or.inr ⟨by simp_all, by simp_all, .cs47l85_16bit_spi_regmap,
        .cs47l85_32bit_spi_regmap, by simp_all, rfl, rfl, rfl⟩)
  by_cases h4 : type = ids.WM1840
  · cases hc : cfg.CONFIG_MFD_CS47L85
    · simp_all
    · exact Or.inr (Or.inr ⟨by simp_all, by simp_all, .cs47l85_16bit_spi_regmap,
        .cs47l85_32bit_spi_regmap, by simp_all, rfl, rfl, rfl⟩)
  by_cases h5 : type = ids.CS47L90
  · cases hc : cfg.CONFIG_MFD_CS47L90
    · simp_all
    · exact Or.inr (Or.inr ⟨by simp_all, by simp_all, .cs47l90_16bit_spi_regmap,
        .cs47l90_32bit_spi_regmap, by simp_all, rfl, rfl, rfl⟩)
  by_cases h6 : type = ids.CS47L91
  · cases hc : cfg.CONFIG_MFD_CS47L90
    · simp_all
    · exact Or.inr (Or.inr ⟨by simp_all, by simp_all, .cs47l90_16bit_spi_regmap,
        .cs47l90_32bit_spi_regmap, by simp_all, rfl, rfl, rfl⟩)
  by_cases h7 : type = ids.CS47L92
  · cases hc : cfg.CONFIG_MFD_CS47L92
    · simp_all
    · exact Or.inr (Or.inr ⟨by simp_all, by simp_all, .cs47l92_16bit_spi_regmap,
        .cs47l92_32bit_spi_regmap, by simp_all, rfl, rfl, rfl⟩)
  by_cases h8 : type = ids.CS47L93
  · cases hc : cfg.CONFIG_MFD_CS47L92
    · simp_all
    · exact Or.inr (Or.inr ⟨by simp_all, by simp_all, .cs47l92_16bit_spi_regmap,
        .cs47l92_32bit_spi_regmap, by simp_all, rfl, rfl, rfl⟩)
  simp_all

theorem switch_selects (ids : madera_type_ids) (cfg : Kconfig) (type : Nat)
    (hnodup : ids.labels.Nodup) :
    (type = ids.CS47L15 ∧ cfg.CONFIG_MFD_CS47L15 = true →
        ∀ t0, madera_spi_probe_switch ids cfg type t0 =
          .next (some .cs47l15_16bit_spi_regmap, some .cs47l15_32bit_spi_regmap) t0)
    ∧ (type = ids.CS47L35 ∧ cfg.CONFIG_MFD_CS47L35 = true →
        ∀ t0, madera_spi_probe_switch ids cfg type t0 =
          .next (some .cs47l35_16bit_spi_regmap, some .cs47l35_32bit_spi_regmap) t0)
    ∧ ((type = ids.CS47L85 ∨ type = ids.WM1840) ∧ cfg.CONFIG_MFD_CS47L85 = true →
        ∀ t0, madera_spi_probe_switch ids cfg type t0 =
          .next (some .cs47l85_16bit_spi_regmap, some .cs47l85_32bit_spi_regmap) t0)
    ∧ ((type = ids.CS47L90 ∨ type = ids.CS47L91) ∧ cfg.CONFIG_MFD_CS47L90 = true →
        ∀ t0, madera_spi_probe_switch ids cfg type t0 =
          .next (some .cs47l90_16bit_spi_regmap, some .cs47l90_32bit_spi_regmap) t0)
    ∧ ((type = ids.CS47L92 ∨ type = ids.CS47L93) ∧ cfg.CONFIG_MFD_CS47L92 = true →
        ∀ t0, madera_spi_probe_switch ids cfg type t0 =
          .next (some .cs47l92_16bit_spi_regmap, some .cs47l92_32bit_spi_regmap) t0) := by
  simp only [madera_type_ids.labels, List.nodup_cons, List.mem_cons, List.mem_singleton,
    List.not_mem_nil, or_false, not_or, List.nodup_nil, and_true, not_false_eq_true]
    at hnodup
  simp only [madera_spi_probe_switch_eq]
  obtain ⟨⟨h12, h13, h14, h15, h16, h17, h18⟩,
    ⟨h23, h24, h25, h26, h27, h28⟩,
    ⟨h34, h35, h36, h37, h38⟩,
    ⟨h45, h46, h47, h48⟩,
    ⟨h56, h57, h58⟩,
    ⟨h67, h68⟩,
    h78⟩ := hnodup
  have hsym :
    ids.CS47L35 ≠ ids.CS47L15 ∧ ids.CS47L85 ≠ ids.CS47L15 ∧ ids.WM1840 ≠ ids.CS47L15 ∧
      ids.CS47L90 ≠ ids.CS47L15 ∧ ids.CS47L91 ≠ ids.CS47L15 ∧ ids.CS47L92 ≠ ids.CS47L15 ∧
      ids.CS47L93 ≠ ids.CS47L15 ∧ ids.CS47L85 ≠ ids.CS47L35 ∧ ids.WM1840 ≠ ids.CS47L35 ∧
      ids.CS47L90 ≠ ids.CS47L35 ∧ ids.CS47L91 ≠ ids.CS47L35 ∧ ids.CS47L92 ≠ ids.CS47L35 ∧
      ids.CS47L93 ≠ ids.CS47L35 ∧ ids.WM1840 ≠ ids.CS47L85 ∧ ids.CS47L90 ≠ ids.CS47L85 ∧
      ids.CS47L91 ≠ ids.CS47L85 ∧ ids.CS47L92 ≠ ids.CS47L85 ∧ ids.CS47L93 ≠ ids.CS47L85 ∧
      ids.CS47L90 ≠ ids.WM1840 ∧ ids.CS47L91 ≠ ids.WM1840 ∧ ids.CS47L92 ≠ ids.WM1840 ∧
      ids.CS47L93 ≠ ids.WM1840 ∧ ids.CS47L91 ≠ ids.CS47L90 ∧ ids.CS47L92 ≠ ids.CS47L90 ∧
      ids.CS47L93 ≠ ids.CS47L90 ∧ ids.CS47L92 ≠ ids.CS47L91 ∧ ids.CS47L93 ≠ ids.CS47L91 ∧
      ids.CS47L93 ≠ ids.CS47L92 :=
    ⟨Ne.symm h12, Ne.symm h13, Ne.symm h14, Ne.symm h15, Ne.symm h16, Ne.symm h17,
      Ne.symm h18, Ne.symm h23, Ne.symm h24, Ne.symm h25, Ne.symm h26, Ne.symm h27,
      Ne.symm h28, Ne.symm h34, Ne.symm h35, Ne.symm h36, Ne.symm h37, Ne.symm h38,
      Ne.symm h45, Ne.symm h46, Ne.symm h47, Ne.symm h48, Ne.symm h56, Ne.symm h57,
      Ne.symm h58, Ne.symm h67, Ne.symm h68, Ne.symm h78⟩
  refine ⟨?_, ?_, ?_, ?_, ?_⟩
  · rintro ⟨h, hc⟩ t0
    simp_all
  · rintro ⟨h, hc⟩ t0
    simp_all
  · rintro ⟨h | h, hc⟩ t0 <;> simp_all
  · rintro ⟨h | h, hc⟩ t0 <;> simp_all
  · rintro ⟨h | h, hc⟩ t0 <;> simp_all

/-- C10: with pairwise distinct type identifiers, `madera_spi_probe` returns -EINVAL
without having allocated the device structure or created a register map exactly when
the hardware type is none of the eight case labels or the build option of its family is
off; whenever the `switch` selects a 16-bit register map it selects the 32-bit map of
the same family with it, and in every case where the probe does not stop with that
early -EINVAL both maps are set; each supported type gets the pair of its family,
CS47L85 and WM1840, CS47L90 and CS47L91, CS47L92 and CS47L93 sharing a pair; every
entry of the id table carries one of the eight types. -/
theorem C10_variant_selection (ids : madera_type_ids) (cfg : Kconfig) (env : ProbeEnv)
    (spi : spi_device) (tr : List Event) (hnodup : ids.labels.Nodup) :
    let type := probe_type spi
    let out := madera_spi_probe ids cfg env spi tr
    let early_einval : Prop :=
      out.1 = -22 ∧ ∀ e ∈ out.2.drop tr.length, is_alloc_or_regmap e = false
    let unsupported : Prop :=
      type ∉ ids.labels
      ∨ (type = ids.CS47L15 ∧ cfg.CONFIG_MFD_CS47L15 = false)
      ∨ (type = ids.CS47L35 ∧ cfg.CONFIG_MFD_CS47L35 = false)
      ∨ ((type = ids.CS47L85 ∨ type = ids.WM1840) ∧ cfg.CONFIG_MFD_CS47L85 = false)
      ∨ ((type = ids.CS47L90 ∨ type = ids.CS47L91) ∧ cfg.CONFIG_MFD_CS47L90 = false)
      ∨ ((type = ids.CS47L92 ∨ type = ids.CS47L93) ∧ cfg.CONFIG_MFD_CS47L92 = false)
    (early_einval ↔ unsupported)
    ∧ (∀ t0 t1 r16 r32, madera_spi_probe_switch ids cfg type t0 = .next (r16, r32) t1 →
        (r16 = none ∧ r32 = none) ∨
          ∃ c16 c32, r16 = some c16 ∧ r32 = some c32 ∧ c16.family = c32.family
            ∧ c16.width = 16 ∧ c32.width = 32)
    ∧ (¬ unsupported → ∀ t0, ∃ c16 c32,
        madera_spi_probe_switch ids cfg type t0 = .next (some c16, some c32) t0
          ∧ c16.family = c32.family ∧ c16.width = 16 ∧ c32.width = 32)
    ∧ ((type = ids.CS47L15 ∧ cfg.CONFIG_MFD_CS47L15 = true →
          ∀ t0, madera_spi_probe_switch ids cfg type t0 =
            .next (some .cs47l15_16bit_spi_regmap, some .cs47l15_32bit_spi_regmap) t0)
      ∧ (type = ids.CS47L35 ∧ cfg.CONFIG_MFD_CS47L35 = true →
          ∀ t0, madera_spi_probe_switch ids cfg type t0 =
            .next (some .cs47l35_16bit_spi_regmap, some .cs47l35_32bit_spi_regmap) t0)
      ∧ ((type = ids.CS47L85 ∨ type = ids.WM1840) ∧ cfg.CONFIG_MFD_CS47L85 = true →
          ∀ t0, madera_spi_probe_switch ids cfg type t0 =
            .next (some .cs47l85_16bit_spi_regmap, some .cs47l85_32bit_spi_regmap) t0)
      ∧ ((type = ids.CS47L90 ∨ type = ids.CS47L91) ∧ cfg.CONFIG_MFD_CS47L90 = true →
          ∀ t0, madera_spi_probe_switch ids cfg type t0 =
            .next (some .cs47l90_16bit_spi_regmap, some .cs47l90_32bit_spi_regmap) t0)
      ∧ ((type = ids.CS47L92 ∨ type = ids.CS47L93) ∧ cfg.CONFIG_MFD_CS47L92 = true →
          ∀ t0, madera_spi_probe_switch ids cfg type t0 =
            .next (some .cs47l92_16bit_spi_regmap, some .cs47l92_32bit_spi_regmap) t0))
    ∧ (∀ entry ∈ madera_spi_ids ids, entry.2 ∈ ids.labels) := by
  intro type out early_einval unsupported
  have hsel := switch_selects ids cfg type hnodup
  have hpairs : ∀ t0 t1 r16 r32,
      madera_spi_probe_switch ids cfg type t0 = .next (r16, r32) t1 →
        (r16 = none ∧ r32 = none) ∨
          ∃ c16 c32, r16 = some c16 ∧ r32 = some c32 ∧ c16.family = c32.family
            ∧ c16.width = 16 ∧ c32.width = 32 :=
    fun t0 t1 r16 r32 h => (switch_pairs_family ids cfg type t0 t1 r16 r32 h).2
  have hids : ∀ entry ∈ madera_spi_ids ids, entry.2 ∈ ids.labels := by
    intro entry he
    simp only [madera_spi_ids, List.mem_cons, List.mem_singleton, List.not_mem_nil,
      or_false] at he
    rcases he with h | h | h | h | h | h | h | h <;> subst h <;>
      simp [madera_type_ids.labels]
  have hunsup : unsupported ↔ (type ∉ ids.labels ∨ family_disabled ids cfg type) := Iff.rfl
  rcases switch_classification ids cfg type hnodup with
    ⟨hnot, hsw⟩ | ⟨hmem, hoff, hsw⟩ | ⟨hmem, hon, c16, c32, hsw, hfam, hw16, hw32⟩
  · have hout : out = (-22, tr ++ [.printk "madera_spi_probe\n"]
        ++ [.dev_err "Unknown Madera SPI device type %ld\n" [(type : Int)]]) :=
      madera_spi_probe_of_default ids cfg env spi tr _ _ (hsw _)
    have hearly : early_einval := by
      simp only [early_einval]
      rw [hout]
      simp [List.append_assoc, List.drop_left, is_alloc_or_regmap]
    exact ⟨⟨fun _ => Or.inl hnot, fun _ => hearly⟩,
      hpairs, fun hn => absurd (Or.inl hnot) hn, hsel, hids⟩
  · have hout : out = (-22, tr ++ [.printk "madera_spi_probe\n"]
        ++ [.dev_err "Kernel does not include support for %s\n" [(type : Int)]]) :=
      madera_spi_probe_of_unset ids cfg env spi tr _ _ (hsw _)
    have hearly : early_einval := by
      simp only [early_einval]
      rw [hout]
      simp [List.append_assoc, List.drop_left, is_alloc_or_regmap]
    exact ⟨⟨fun _ => Or.inr hoff, fun _ => hearly⟩,
      hpairs, fun hn => absurd (Or.inr hoff) hn, hsel, hids⟩
  · obtain ⟨rest, hrest⟩ := madera_spi_probe_of_set ids cfg env spi tr _ c16 (some c32) (hsw _)
    have hnearly : ¬ early_einval := by
      simp only [early_einval]
      rintro ⟨_, hall⟩
      have hmemk : Event.devm_kzalloc env.devm_kzalloc_ok ∈ out.2.drop tr.length := by
        simp only [out]
        rw [hrest, List.append_assoc, List.drop_left]
        simp
      have := hall _ hmemk
      simp [is_alloc_or_regmap] at this
    have hnun : ¬ unsupported := by
      rw [hunsup]
      rintro (h | h)
      · exact h hmem
      · exact hon h
    exact ⟨⟨fun h => absurd h hnearly, fun h => absurd h hnun⟩,
      hpairs, fun _ t0 => ⟨c16, c32, hsw t0, hfam, hw16, hw32⟩, hsel, hids⟩

/-- Witness for C10: the identifier values of the mainline `enum madera_type`
(CS47L35 = 1, CS47L85 = 2, CS47L90 = 3, CS47L91 = 4, CS47L92 = 5, CS47L93 = 6,
WM1840 = 7, CS47L15 = 8), only CS47L35 support built, probing a WM1840 found through
the id table: the probe stops early with -EINVAL. -/
theorem C10_variant_selection_witness :
    (madera_spi_probe ⟨8, 1, 2, 3, 4, 5, 6, 7⟩ ⟨false, true, false, false, false⟩
        ⟨true, fun _ => none, fun _ => 0⟩ ⟨false, 0, 7, 0⟩ []).1 = -22 :=
  ((C10_variant_selection ⟨8, 1, 2, 3, 4, 5, 6, 7⟩ ⟨false, true, false, false, false⟩
    ⟨true, fun _ => none, fun _ => 0⟩ ⟨false, 0, 7, 0⟩ [] (by decide)).1.2
      (Or.inr (Or.inr (Or.inr (Or.inl ⟨Or.inr rfl, rfl⟩))))).1

end MaderaSpi
